import Mathlib

/-!
Shallow embedding of the euterpe pipeline agents (keyframe parser, image
generator, video generator, music/result logger) and proofs about the
claims of the specification.  Python dictionaries with optional keys are
modelled as structures with `Option` fields (`none` = key absent), the
remote provider and the filesystem are modelled as explicit oracles and
an explicit store, and machine behaviour (string methods, truthiness,
`int()` parsing) is embedded by small executable helpers.
-/

namespace Euterpe

/-! ### Python string and truthiness helpers -/

/-- Python truthiness of an optional string (`if not x`): `None` and the
empty string are falsy. -/
def pyTruthy : Option String → Bool
  | none => false
  | some s => !s.data.isEmpty

/-- Python `str.strip()`: remove leading and trailing whitespace. -/
def pyStrip (s : String) : String :=
  String.mk (((s.data.dropWhile Char.isWhitespace).reverse.dropWhile Char.isWhitespace).reverse)

/-- Python `str.startswith(p)` for a concrete pattern `p`. -/
def pyStartsWith (p : List Char) (s : String) : Bool :=
  p.isPrefixOf s.data

/-- Python `str.lower()` (ASCII). -/
def pyLower (s : String) : String :=
  String.mk (s.data.map Char.toLower)

/-- Split a character list at the first `':'`; `none` when there is no
colon (Python `":" in line` test plus `line.split(":", 1)`). -/
def splitFirstColon : List Char → Option (List Char × List Char)
  | [] => none
  | c :: cs =>
    if c = ':' then some ([], cs)
    else (splitFirstColon cs).map (fun kv => (c :: kv.1, kv.2))

/-- Decimal value of a nonempty digit string, `none` otherwise. -/
def digitsVal (cs : List Char) : Option Nat :=
  match cs with
  | [] => none
  | _ =>
    cs.foldl
      (fun acc? c =>
        acc?.bind (fun acc => if c.isDigit then some (acc * 10 + (c.toNat - 48)) else none))
      (some 0)

/-- Python `int(value)` on an already-stripped string: optional sign then
digits; `none` models the `ValueError` that the source catches and
ignores. -/
def pyToInt (s : String) : Option Int :=
  match s.data with
  | '-' :: rest => (digitsVal rest).map (fun n => -(n : Int))
  | '+' :: rest => (digitsVal rest).map (fun n => (n : Int))
  | cs => (digitsVal cs).map (fun n => (n : Int))

/-! ### Keyframe parser agent (`keyframe_parser_agent.py`) -/

/-- `KeyframeData` from the keyframe parser; `to_dict` serializes exactly
these fields, so the same structure models the serialized dictionary. -/
structure KeyframeData where
  prompt : String
  negative_prompt : Option String := none
  frame_number : Option Int := none
  timestamp : Option String := none
  aspect_ratio : Option String := none
  seed : Option Int := none
deriving DecidableEq

/-- The `current_frame` dictionary built up inside `parse_keyframe_file`;
an `Option` field is `some` exactly when the key is present. -/
structure CurFrame where
  prompt : Option String := none
  negative_prompt : Option String := none
  frame_number : Option Int := none
  aspect_ratio : Option String := none
  seed : Option Int := none
deriving DecidableEq

/-- Building a `KeyframeData` from a finished block
(`KeyframeData(prompt=..., ..., aspect_ratio=current_frame.get("aspect_ratio", "16:9"), ...)`);
`timestamp` is never passed by the parser. -/
def flushFrame (cf : CurFrame) : KeyframeData :=
  { prompt := cf.prompt.getD ""
    negative_prompt := cf.negative_prompt
    frame_number := cf.frame_number
    timestamp := none
    aspect_ratio := some (cf.aspect_ratio.getD "16:9")
    seed := cf.seed }

/-- Key/value extraction from a stripped line:
`key, value = line.split(":", 1); key = key.strip().lower(); value = value.strip()`. -/
def parseKV (t : String) : Option (String × String) :=
  (splitFirstColon t.data).map
    (fun kv => (pyLower (pyStrip (String.mk kv.1)), pyStrip (String.mk kv.2)))

/-- Dispatch of one key/value pair onto `current_frame`; unknown keys and
unparsable integers are ignored, as in the source. -/
def applyKV (cf : CurFrame) (k v : String) : CurFrame :=
  if k = "frame" ∨ k = "frame_number" then
    match pyToInt v with
    | some n => { cf with frame_number := some n }
    | none => cf
  else if k = "prompt" then { cf with prompt := some v }
  else if k = "negative_prompt" then { cf with negative_prompt := some v }
  else if k = "aspect_ratio" then { cf with aspect_ratio := some v }
  else if k = "seed" then
    match pyToInt v with
    | some n => { cf with seed := some n }
    | none => cf
  else cf

/-- Processing of one non-blank, non-comment, non-delimiter line. -/
def parseLine (cf : CurFrame) (t : String) : CurFrame :=
  match parseKV t with
  | some kv => applyKV cf kv.1 kv.2
  | none => cf

/-- The line loop of `parse_keyframe_file`.  A `'---'` line flushes the
current block when it has a prompt (`if current_frame and "prompt" in
current_frame`, which is equivalent to the prompt key being present);
the trailing block is flushed the same way at the end. -/
def parseGo (cf : CurFrame) : List String → List KeyframeData
  | [] => if cf.prompt.isSome then [flushFrame cf] else []
  | l :: ls =>
    let t := pyStrip l
    if t.data.isEmpty || pyStartsWith ['#'] t then parseGo cf ls
    else if pyStartsWith ['-', '-', '-'] t then
      if cf.prompt.isSome then flushFrame cf :: parseGo {} ls
      else parseGo {} ls
    else parseGo (parseLine cf t) ls

/-- `parse_keyframe_file`, over the list of lines of the file. -/
def parseKeyframeLines (lines : List String) : List KeyframeData :=
  parseGo {} lines

/-- Input message of the keyframe parser stage. -/
structure KPMessage where
  keyframes_file : Option String := none
  default_aspect_ratio : Option String := none
  frameIdPre : Option String := none
deriving DecidableEq

/-- `metadata` mapping of the keyframe parser output (`frameIdPre` models
the source's frame-id-prefix entry). -/
structure KPMetadata where
  source_file : Option String := none
  default_aspect_ratio : Option String := none
  frameIdPre : Option String := none
deriving DecidableEq

/-- Output message of the keyframe parser stage; an `Option` field is
`some` exactly when the corresponding key is present in the emitted
dictionary. -/
structure KPOutput where
  status : Option String := none
  error : Option String := none
  keyframes : Option (List KeyframeData) := none
  count : Option Nat := none
  metadata : Option KPMetadata := none
deriving DecidableEq

/-- `process_input_message` of the keyframe parser.  The file system read
is passed explicitly: `Except.error e` models `open` raising with message
`e`, `Except.ok lines` a successful read of the file's lines. -/
def kpProcessInputMessage (msg : KPMessage) (file : Except String (List String)) : KPOutput :=
  if pyTruthy msg.keyframes_file = false then
    { error := some "Missing required parameter 'keyframes_file'" }
  else
    match file with
    | .error e =>
      { status := some "error"
        error := some e
        metadata := some { source_file := msg.keyframes_file } }
    | .ok lines =>
      let kfs := parseKeyframeLines lines
      { status := some "success"
        keyframes := some kfs
        count := some kfs.length
        metadata := some
          { source_file := msg.keyframes_file
            default_aspect_ratio := some (msg.default_aspect_ratio.getD "16:9")
            frameIdPre := some (msg.frameIdPre.getD "frame_") } }

/-! ### Image generator agent (`image_generator_agent.py`) -/

/-- A keyframe dictionary as consumed by `process_keyframes` (the
serialized `KeyframeData` of the parser stage, keys possibly absent). -/
structure Keyframe where
  prompt : Option String := none
  negative_prompt : Option String := none
  frame_number : Option Int := none
  aspect_ratio : Option String := none
  seed : Option Int := none
deriving DecidableEq

/-- `keyframe.get('frame_number') or (idx + 1)`: Python `or` falls back to
the index both when the key is absent and when the stored number is `0`
(falsy). -/
def derivedFrameNumber (idx : Nat) (kf : Keyframe) : Int :=
  match kf.frame_number with
  | some n => if n = 0 then (idx : Int) + 1 else n
  | none => (idx : Int) + 1

/-- `frame_id = f"{frame_id_prefix}{frame_number}"`. -/
def frameId (pre : String) (idx : Nat) (kf : Keyframe) : String :=
  pre ++ toString (derivedFrameNumber idx kf)

/-- The frame ids assigned to a batch, in input order, starting at
index `idx`. -/
def frameIdsGo (pre : String) : Nat → List Keyframe → List String
  | _, [] => []
  | idx, kf :: kfs => frameId pre idx kf :: frameIdsGo pre (idx + 1) kfs

/-- The frame ids assigned to a batch by `process_keyframes`. -/
def frameIds (pre : String) (kfs : List Keyframe) : List String :=
  frameIdsGo pre 0 kfs

/-- One entry of the image stage's `results` list.  The emitted
dictionary never contains an error-reason key, which the always-`none`
`reason` field records. -/
structure ImageItemResult where
  frame_id : String
  frame_number : Int
  prompt : String
  image_path : Option String
  status : String
  reason : Option String := none
  original_keyframe : Keyframe
deriving DecidableEq

/-- The result record built for one keyframe; `img` is the value returned
by `ImageGenerator.generate` (`none` on any failure). -/
def imageItemResult (pre : String) (idx : Nat) (kf : Keyframe) (img : Option String) :
    ImageItemResult :=
  { frame_id := frameId pre idx kf
    frame_number := derivedFrameNumber idx kf
    prompt := kf.prompt.getD ""
    image_path := img
    status := if img.isSome then "success" else "failed"
    reason := none
    original_keyframe := kf }

/-- The loop of `process_keyframes`; `gen` is the oracle giving the
outcome of the remote generation for the item at each position. -/
def processKeyframesGo (gen : Nat → Option String) (pre : String) :
    Nat → List Keyframe → List ImageItemResult
  | _, [] => []
  | idx, kf :: kfs =>
    imageItemResult pre idx kf (gen idx) :: processKeyframesGo gen pre (idx + 1) kfs

/-- `process_keyframes`: one result per keyframe, in input order. -/
def processKeyframes (gen : Nat → Option String) (pre : String) (kfs : List Keyframe) :
    List ImageItemResult :=
  processKeyframesGo gen pre 0 kfs

/-! ### Video generator agent (`video_generator_agent.py`) -/

/-- A frame dictionary as consumed by `process_frame_images`. -/
structure Frame where
  frame_id : Option String := none
  image_path : Option String := none
  prompt : Option String := none
deriving DecidableEq

/-- One entry of the video stage's `results` list.  The skipped record of
the source has only `frame_id`, `status`, `reason` and the original
frame; the success/failed record has `frame_id`, `image_path`,
`video_path`, `prompt`, `status` and the original frame and no reason
key. -/
structure VideoItemResult where
  frame_id : Option String
  image_path : Option String := none
  video_path : Option String := none
  prompt : Option String := none
  status : String
  reason : Option String := none
  original_frame : Frame
deriving DecidableEq

/-- The per-frame branch of `process_frame_images`: a frame with a falsy
`image_path` is skipped without any remote call; otherwise the prompt is
optionally enhanced and the generation outcome `gen?` decides
success/failed. -/
def videoFrameResult (gen? : Option String) (enhance : String → String) (useDify : Bool)
    (f : Frame) : VideoItemResult :=
  if pyTruthy f.image_path = false then
    { frame_id := f.frame_id
      status := "skipped"
      reason := some "No image available"
      original_frame := f }
  else
    { frame_id := f.frame_id
      image_path := f.image_path
      video_path := gen?
      prompt := some (if useDify then enhance (f.prompt.getD "") else f.prompt.getD "")
      status := if gen?.isSome then "success" else "failed"
      reason := none
      original_frame := f }

/-- The loop of `process_frame_images`; `gen` is the oracle giving the
outcome of `generate_from_image` for the item at each position. -/
def processFrameImagesGo (gen : Nat → Option String) (enhance : String → String)
    (useDify : Bool) : Nat → List Frame → List VideoItemResult
  | _, [] => []
  | i, f :: fs =>
    videoFrameResult (gen i) enhance useDify f ::
      processFrameImagesGo gen enhance useDify (i + 1) fs

/-- `process_frame_images`: one result per frame, in input order. -/
def processFrameImages (gen : Nat → Option String) (enhance : String → String)
    (useDify : Bool) (frames : List Frame) : List VideoItemResult :=
  processFrameImagesGo gen enhance useDify 0 frames

/-! ### The polling loop of `VideoGenerator.generate_from_image` -/

/-- What one call of `get_task_status` can yield: the remote call raises
(`transportError`, re-raised by the source after logging), a response
without a usable `data`/`task_status` entry, or a task status string
together with the optional failure message and the optional video url
reachable through `task_result.videos[0].url`. -/
inductive PollResp where
  | transportError
  | noData
  | status (task_status : String) (statusMsg : Option String) (url : Option String)
deriving DecidableEq

/-- Responses that keep the loop polling: no usable data, or a status
that is neither `succeed` nor `failed`. -/
def PollResp.isPending : PollResp → Bool
  | .transportError => false
  | .noData => true
  | .status s _ _ => !(s == "succeed") && !(s == "failed")

/-- How the polling phase of `generate_from_image` ends.
`transportAbort` is the re-raised poll exception reaching the
surrounding `except` handler; `outOfFuel` is an artifact of the bounded
model and is never reached for a positive interval. -/
inductive PollOutcome where
  | succeed (url : Option String)
  | failedTask (msg : String)
  | timeout
  | transportAbort
  | outOfFuel
deriving DecidableEq

/-- The `while elapsed < max_wait_time` loop.  `oracle k` is the response
of the `k`-th poll call; `polls` counts issued poll calls and `elapsed`
accumulates `check_interval` after each non-terminal response, exactly
as in the source. -/
def pollGo (oracle : Nat → PollResp) (maxWait interval : Nat) :
    Nat → Nat → Nat → PollOutcome × Nat
  | 0, elapsed, polls =>
    if elapsed < maxWait then (.outOfFuel, polls) else (.timeout, polls)
  | fuel + 1, elapsed, polls =>
    if elapsed < maxWait then
      match oracle polls with
      | .transportError => (.transportAbort, polls + 1)
      | .noData => pollGo oracle maxWait interval fuel (elapsed + interval) (polls + 1)
      | .status s m u =>
        if s = "succeed" then (.succeed u, polls + 1)
        else if s = "failed" then (.failedTask (m.getD "Unknown error"), polls + 1)
        else pollGo oracle maxWait interval fuel (elapsed + interval) (polls + 1)
    else (.timeout, polls)

/-- The polling phase of `generate_from_image`, with the outcome and the
number of poll calls issued.  `maxWait + 1` units of fuel are enough for
every positive interval, since each iteration adds at least `1` to
`elapsed`. -/
def pollLoop (oracle : Nat → PollResp) (maxWait interval : Nat) : PollOutcome × Nat :=
  pollGo oracle maxWait interval (maxWait + 1) 0 0

/-- The constants hardcoded in the source: `max_wait_time = 300`,
`check_interval = 5`. -/
def videoMaxWait : Nat := 300

/-- See `videoMaxWait`. -/
def videoInterval : Nat := 5

/-! ### Filesystem and artifact download -/

/-- A local filesystem: file name to content, `none` = file absent. -/
abbrev FS := String → Option String

/-- What `requests.get(url)` can do: raise, or return a response whose
body is `content` (the source never inspects the HTTP status). -/
inductive Transport where
  | raiseErr
  | ok (content : String)
deriving DecidableEq

/-- What the local disk can do during
`with open(output_path, "wb") as f: f.write(response.content)`: the
write completes, or `open`/`write` raises with `remnant` being whatever
incomplete file the failed write left behind (`none` when nothing was
written, e.g. `open` itself raised). -/
inductive Disk where
  | ok
  | raiseErr (remnant : Option String)
deriving DecidableEq

/-- The download step shared by both generator agents:
`response = requests.get(url); open(output_path, "wb").write(response.content)`.
A raised transport error propagates to the surrounding handler before
the file is ever opened, so the handler returns `none` and the
filesystem is untouched; a raised disk error likewise reaches the
handler (`except Exception` in `generate_from_image` / `generate`), so
the call returns `none`, with the incomplete remnant file, if any, left
on disk; otherwise whatever body was received is written and the path
is returned. -/
def fetchArtifact (fs : FS) (t : Transport) (d : Disk) (dest : String) : FS × Option String :=
  match t with
  | .raiseErr => (fs, none)
  | .ok content =>
    match d with
    | .ok => (Function.update fs dest (some content), some dest)
    | .raiseErr none => (fs, none)
    | .raiseErr (some r) => (Function.update fs dest (some r), none)

/-- `generate_from_image` after task submission: poll, and only a
`succeed` outcome whose completed task carries a video url leads to the
download; every other outcome (task failed, timeout, re-raised poll
error, missing url) makes the call return `none`. -/
def generateFromImage (oracle : Nat → PollResp) (maxWait interval : Nat) (t : Transport)
    (d : Disk) (fs : FS) (outDir fid : String) : FS × Option String :=
  match (pollLoop oracle maxWait interval).1 with
  | .succeed (some _) => fetchArtifact fs t d (outDir ++ "/" ++ fid ++ ".mp4")
  | _ => (fs, none)

/-! ### Result logger agent (`result_logger_agent.py`) -/

/-- The music generator's output message, as consumed by the logger. -/
structure MusicMsg where
  status : Option String := none
  music_path : Option String := none
deriving DecidableEq

/-- The `summary` entry of the log record built by
`ResultLogger.log_results`. -/
structure RunSummary where
  video_frames : Nat
  successful_videos : Nat
  failed_videos : Nat
  music_generated : Bool
deriving DecidableEq

/-- The summary counters of `log_results`: length of the list, count of
`status == "success"`, count of `status == "failed"`, and the music
presence test `music_result is not None and music_result.get("status") == "success"`. -/
def runSummary (videoResults : List VideoItemResult) (music : Option MusicMsg) : RunSummary :=
  { video_frames := videoResults.length
    successful_videos := (videoResults.filter (fun v => v.status == "success")).length
    failed_videos := (videoResults.filter (fun v => v.status == "failed")).length
    music_generated :=
      match music with
      | none => false
      | some m => m.status == some "success" }

/-- The persistence step of `log_results`: the structured record is
written to `{run_id}.json` and the markdown summary to
`{run_id}_summary.md`, both with mode `'w'` (create or truncate). -/
def logResults (fs : FS) (runId reportContent summaryContent : String) : FS :=
  Function.update (Function.update fs (runId ++ ".json") (some reportContent))
    (runId ++ "_summary.md") (some summaryContent)

/-! ### Theorems -/

/-- Claim C1, counterexample: a single video-stage result with status
`skipped` gives a summary with `total = 1` but `successful = failed = 0`,
so `successful + failed = total` fails in the presence of skipped
results. -/
theorem c1_skipped_breaks_counters :
    (runSummary [videoFrameResult none id false { frame_id := some "f1" }] none).successful_videos
        + (runSummary [videoFrameResult none id false { frame_id := some "f1" }] none).failed_videos
      ≠ (runSummary [videoFrameResult none id false { frame_id := some "f1" }] none).video_frames := by
  decide

/-- Helper for C1: the success, failed and remaining statuses partition
the result list. -/
theorem filter_status_partition (rs : List VideoItemResult) :
    (rs.filter (fun v => v.status == "success")).length
        + (rs.filter (fun v => v.status == "failed")).length
        + (rs.filter (fun v => !(v.status == "success") && !(v.status == "failed"))).length
      = rs.length := by
  induction rs with
  | nil => rfl
  | cons v vs ih =>
    simp only [List.filter_cons, List.length_cons]
    cases hs : (v.status == "success") with
    | false =>
      cases hf : (v.status == "failed") with
      | false =>
        simp only [Bool.not_false, Bool.and_self, Bool.false_eq_true, if_false,
          if_true, List.length_cons]
        omega
      | true =>
        simp only [Bool.not_false, Bool.not_true, Bool.and_false, Bool.false_eq_true,
          if_false, if_true, List.length_cons]
        omega
    | true =>
      cases hf : (v.status == "failed") with
      | false =>
        simp only [Bool.not_true, Bool.not_false, Bool.false_and, Bool.false_eq_true,
          if_false, if_true, List.length_cons]
        omega
      | true => exact absurd (eq_of_beq hf) (by rw [eq_of_beq hs]; decide)

/-- Claim C1, amended: the summary counters of `log_results` satisfy
`successful + failed + other = total`, where `other` counts the results
whose status is neither `success` nor `failed` (such as `skipped`);
`successful + failed = total` therefore holds exactly when no such other
status occurs. -/
theorem c1_summary_partition (rs : List VideoItemResult) (music : Option MusicMsg) :
    (runSummary rs music).successful_videos + (runSummary rs music).failed_videos
        + (rs.filter (fun v => !(v.status == "success") && !(v.status == "failed"))).length
      = (runSummary rs music).video_frames :=
  filter_status_partition rs

/-- Claim C2, counterexample: a frame with an image whose video
generation fails produces a result with status `failed` and no error
reason at all, contradicting the claim that every failed result carries
an error reason. -/
theorem c2_failed_has_no_reason :
    (videoFrameResult none id false
        { frame_id := some "f1", image_path := some "img.png" }).status = "failed" ∧
    (videoFrameResult none id false
        { frame_id := some "f1", image_path := some "img.png" }).reason = none := by
  decide

/-- Claim C2, amended: every item result of the two generation stages is
exactly one of: `skipped` with an error reason and no output path,
`success` with an output path and no error reason, or `failed` with
neither an output path nor an error reason; image-stage results never
carry an error reason. -/
theorem c2_exactly_one_shape (gen? : Option String) (enhance : String → String)
    (useDify : Bool) (f : Frame) (pre : String) (idx : Nat) (kf : Keyframe)
    (img : Option String) :
    ((videoFrameResult gen? enhance useDify f).status = "skipped" ∧
        (videoFrameResult gen? enhance useDify f).reason = some "No image available" ∧
        (videoFrameResult gen? enhance useDify f).video_path = none ∨
      (videoFrameResult gen? enhance useDify f).status = "success" ∧
        (videoFrameResult gen? enhance useDify f).video_path.isSome = true ∧
        (videoFrameResult gen? enhance useDify f).reason = none ∨
      (videoFrameResult gen? enhance useDify f).status = "failed" ∧
        (videoFrameResult gen? enhance useDify f).video_path = none ∧
        (videoFrameResult gen? enhance useDify f).reason = none) ∧
    ((imageItemResult pre idx kf img).status = "success" ∧
        (imageItemResult pre idx kf img).image_path.isSome = true ∧
        (imageItemResult pre idx kf img).reason = none ∨
      (imageItemResult pre idx kf img).status = "failed" ∧
        (imageItemResult pre idx kf img).image_path = none ∧
        (imageItemResult pre idx kf img).reason = none) := by
  constructor
  · by_cases h : pyTruthy f.image_path = false
    · left
      simp [videoFrameResult, h]
    · cases gen? with
      | none => right; right; simp [videoFrameResult, h]
      | some p => right; left; simp [videoFrameResult, h]
  · cases img with
    | none => right; simp [imageItemResult]
    | some p => left; simp [imageItemResult]

/-- Claim C4 (code bug): on an input message without a truthy
`keyframes_file`, the keyframe parser emits a message that carries the
error string but no `status` field at all, for every state of the file
system. -/
theorem c4_missing_keyframes_file_output (file : Except String (List String)) :
    (kpProcessInputMessage {} file).error
        = some "Missing required parameter 'keyframes_file'" ∧
    (kpProcessInputMessage {} file).status = none :=
  ⟨rfl, rfl⟩

/-- Claim C6, counterexample: logging a second report under the same
`run_id` replaces the first one — the report file is opened with mode
`'w'`, so persistence is not append-only. -/
theorem c6_same_run_id_overwrites :
    logResults (fun _ => none) "run_1" "A" "SA" "run_1.json" = some "A" ∧
    logResults (logResults (fun _ => none) "run_1" "A" "SA") "run_1" "B" "SB" "run_1.json"
      = some "B" ∧
    ("A" : String) ≠ "B" :=
  ⟨by decide, by decide, by decide⟩

/-- Claim C6, amended: filenames are deterministic in `run_id`, so at
most one report file and one summary file exist per `run_id` and no
other file is touched, but a later `log_results` with the same `run_id`
overwrites the earlier files (last write wins). -/
theorem c6_log_last_write_wins (fs : FS) (runId c1 s1 c2 s2 n : String)
    (hn1 : n ≠ runId ++ ".json") (hn2 : n ≠ runId ++ "_summary.md") :
    logResults (logResults fs runId c1 s1) runId c2 s2 = logResults fs runId c2 s2 ∧
    logResults fs runId c1 s1 n = fs n := by
  constructor
  · funext x
    by_cases hxs : x = runId ++ "_summary.md" <;> by_cases hxj : x = runId ++ ".json" <;>
      simp [logResults, Function.update_apply, hxs, hxj]
  · simp [logResults, Function.update_apply, hn1, hn2]

/-- Witness for C6: last write wins and the frame condition at a
concrete run id and an unrelated file name. -/
theorem c6_witness :
    logResults (logResults (fun _ => none) "run_1" "A" "SA") "run_1" "B" "SB"
        = logResults (fun _ => none) "run_1" "B" "SB" ∧
    logResults (fun _ => none) "run_1" "A" "SA" "other.txt"
      = (fun _ => none : FS) "other.txt" :=
  c6_log_last_write_wins (fun _ => none) "run_1" "A" "SA" "B" "SB" "other.txt"
    (by decide) (by decide)

/-- Claim C7, counterexample: a transport response with an empty body is
written to the destination and reported as a success, so the destination
file exists but is empty in a state that looks successful. -/
theorem c7_empty_success :
    (fetchArtifact (fun _ => none) (Transport.ok "") Disk.ok "out/frame_1.mp4").2
        = some "out/frame_1.mp4" ∧
    (fetchArtifact (fun _ => none) (Transport.ok "") Disk.ok "out/frame_1.mp4").1 "out/frame_1.mp4"
      = some "" :=
  ⟨rfl, by decide⟩

/-- Claim C7, amended: on success the destination exists and holds
exactly the received body, which may be empty (neither the HTTP status
nor the content is checked), so non-emptiness is not guaranteed; on a
raising transport call no file is written and the item is reported
failed; on a disk failure the item is reported failed — an incomplete
remnant file may remain, but never in a state that looks successful,
since no path is returned. -/
theorem c7_fetch_semantics (fs : FS) (content dest r : String) (d : Disk) :
    (fetchArtifact fs (Transport.ok content) Disk.ok dest).2 = some dest ∧
    (fetchArtifact fs (Transport.ok content) Disk.ok dest).1 dest = some content ∧
    fetchArtifact fs Transport.raiseErr d dest = (fs, none) ∧
    fetchArtifact fs (Transport.ok content) (Disk.raiseErr none) dest = (fs, none) ∧
    (fetchArtifact fs (Transport.ok content) (Disk.raiseErr (some r)) dest).2 = none ∧
    (fetchArtifact fs (Transport.ok content) (Disk.raiseErr (some r)) dest).1 dest = some r := by
  refine ⟨rfl, ?_, ?_, rfl, rfl, ?_⟩
  · simp [fetchArtifact]
  · cases d <;> rfl
  · simp [fetchArtifact]

/-- Claim C8, counterexample: an explicit frame number equal to another
item's index-derived number yields two identical frame ids in one batch,
so the assigned item ids are not unique. -/
theorem c8_duplicate_frame_ids :
    frameIds "frame_" [{ frame_number := some 2 }, {}] = ["frame_2", "frame_2"] ∧
    ¬ (frameIds "frame_" [{ frame_number := some 2 }, {}]).Nodup := by
  decide

/-- Claim C8, amended: the item id is the prefix followed by the item's
explicit frame number when present and nonzero, otherwise its index plus
one; uniqueness within a batch is not guaranteed — any two items whose
derived numbers coincide receive the same id. -/
theorem c8_equal_derived_numbers_collide (pre : String) (i j : Nat) (k1 k2 : Keyframe)
    (h : derivedFrameNumber i k1 = derivedFrameNumber j k2) :
    frameId pre i k1 = frameId pre j k2 := by
  simp [frameId, h]

/-- Witness for C8: item 0 with explicit frame number 2 and item 1
without one derive the same number and hence the same id. -/
theorem c8_witness :
    derivedFrameNumber 0 ({ frame_number := some 2 } : Keyframe)
        = derivedFrameNumber 1 ({} : Keyframe) ∧
    frameId "frame_" 0 { frame_number := some 2 } = frameId "frame_" 1 {} :=
  ⟨by decide, c8_equal_derived_numbers_collide "frame_" 0 1 _ _ (by decide)⟩

/-- Helper for C9: the image-stage loop emits one result per keyframe. -/
theorem processKeyframesGo_length (gen : Nat → Option String) (pre : String) :
    ∀ idx kfs, (processKeyframesGo gen pre idx kfs).length = kfs.length := by
  intro idx kfs
  induction kfs generalizing idx with
  | nil => rfl
  | cons kf kfs ih => simp [processKeyframesGo, ih]

/-- Helper for C9: the image-stage results list the assigned frame ids
in input order. -/
theorem processKeyframesGo_map_frame_id (gen : Nat → Option String) (pre : String) :
    ∀ idx kfs, (processKeyframesGo gen pre idx kfs).map ImageItemResult.frame_id
      = frameIdsGo pre idx kfs := by
  intro idx kfs
  induction kfs generalizing idx with
  | nil => rfl
  | cons kf kfs ih => simp [processKeyframesGo, frameIdsGo, imageItemResult, ih]

/-- Helper for C9: both branches of the video-stage per-frame record keep
the input's frame id. -/
theorem videoFrameResult_frame_id (gen? : Option String) (enhance : String → String)
    (useDify : Bool) (f : Frame) :
    (videoFrameResult gen? enhance useDify f).frame_id = f.frame_id := by
  unfold videoFrameResult
  split <;> rfl

/-- Helper for C9: the video-stage loop emits one result per frame. -/
theorem processFrameImagesGo_length (gen : Nat → Option String) (enhance : String → String)
    (useDify : Bool) :
    ∀ i frames, (processFrameImagesGo gen enhance useDify i frames).length = frames.length := by
  intro i frames
  induction frames generalizing i with
  | nil => rfl
  | cons f fs ih => simp [processFrameImagesGo, ih]

/-- Helper for C9: the video-stage results list the input frame ids in
input order. -/
theorem processFrameImagesGo_map_frame_id (gen : Nat → Option String)
    (enhance : String → String) (useDify : Bool) :
    ∀ i frames, (processFrameImagesGo gen enhance useDify i frames).map VideoItemResult.frame_id
      = frames.map Frame.frame_id := by
  intro i frames
  induction frames generalizing i with
  | nil => rfl
  | cons f fs ih => simp [processFrameImagesGo, videoFrameResult_frame_id, ih]

/-- Claim C9: for both generation stages, the output item-result sequence
has the same length as the input sequence and lists the items' ids in
the same order as the input. -/
theorem c9_output_matches_input (gen : Nat → Option String) (pre : String)
    (kfs : List Keyframe) (vgen : Nat → Option String) (enhance : String → String)
    (useDify : Bool) (frames : List Frame) :
    (processKeyframes gen pre kfs).length = kfs.length ∧
    (processKeyframes gen pre kfs).map ImageItemResult.frame_id = frameIds pre kfs ∧
    (processFrameImages vgen enhance useDify frames).length = frames.length ∧
    (processFrameImages vgen enhance useDify frames).map VideoItemResult.frame_id
      = frames.map Frame.frame_id :=
  ⟨processKeyframesGo_length gen pre 0 kfs, processKeyframesGo_map_frame_id gen pre 0 kfs,
    processFrameImagesGo_length vgen enhance useDify 0 frames,
    processFrameImagesGo_map_frame_id vgen enhance useDify 0 frames⟩

/-- Claim C3, counterexample: the first poll call raises a transient
transport error while the very next poll would have reported success;
the loop stops after exactly one poll with the re-raised error, the
surrounding handler returns no video, and the item would be recorded as
failed — the loop does not continue polling. -/
theorem c3_transport_error_is_terminal :
    pollLoop (fun k => if k = 0 then PollResp.transportError
        else PollResp.status "succeed" none (some "u")) 300 5
      = (PollOutcome.transportAbort, 1) ∧
    generateFromImage (fun k => if k = 0 then PollResp.transportError
        else PollResp.status "succeed" none (some "u")) 300 5 (Transport.ok "video-bytes")
      Disk.ok (fun _ => none) "out" "frame_1"
      = ((fun _ => none : FS), none) :=
  ⟨rfl, rfl⟩

/-- Claim C3, amended: a transient transport error on a poll call is
logged and re-raised; the poll loop stops with that single call and the
enclosing handler of `generate_from_image` returns no video (so the item
is recorded as failed) instead of continuing to poll. -/
theorem c3_poll_transport_error_aborts (oracle : Nat → PollResp) (maxWait interval : Nat)
    (t : Transport) (d : Disk) (fs : FS) (outDir fid : String)
    (h0 : oracle 0 = PollResp.transportError) (hw : 0 < maxWait) :
    pollLoop oracle maxWait interval = (PollOutcome.transportAbort, 1) ∧
    generateFromImage oracle maxWait interval t d fs outDir fid = (fs, none) := by
  have hp : pollLoop oracle maxWait interval = (PollOutcome.transportAbort, 1) := by
    unfold pollLoop
    rw [pollGo]
    simp [hw, h0]
  refine ⟨hp, ?_⟩
  simp [generateFromImage, hp]

/-- Witness for C3: a run whose polls always raise, with the source's
constants 300/5, aborts after one poll and yields no video. -/
theorem c3_amended_witness :
    pollLoop (fun _ => PollResp.transportError) 300 5 = (PollOutcome.transportAbort, 1) ∧
    generateFromImage (fun _ => PollResp.transportError) 300 5 Transport.raiseErr
      Disk.ok (fun _ => none) "out" "frame_1" = ((fun _ => none : FS), none) :=
  c3_poll_transport_error_aborts (fun _ => PollResp.transportError) 300 5 Transport.raiseErr
    Disk.ok (fun _ => none) "out" "frame_1" rfl (by decide)

/-- Helper for C5: one ceiling-division step,
`⌈a / i⌉ = ⌈(a - i) / i⌉ + 1` for positive `a` and `i`, with
`⌈x / i⌉` written as `(x + i - 1) / i`. -/
theorem ceil_step (a i : Nat) (hi : 0 < i) (ha : 0 < a) :
    (a + i - 1) / i = (a - i + i - 1) / i + 1 := by
  have h1 : a + i - 1 = (a - 1) + i := by omega
  rw [h1, Nat.add_div_right _ hi]
  rcases le_or_lt a i with h | h
  · have h2 : a - i + i - 1 = i - 1 := by omega
    rw [h2, Nat.div_eq_of_lt (by omega), Nat.div_eq_of_lt (by omega)]
  · have h2 : a - i + i - 1 = a - 1 := by omega
    rw [h2]

/-- Helper for C5: when every poll response is pending, the loop runs to
the timeout, issuing `⌈(maxWait - elapsed) / interval⌉` further poll
calls, provided the fuel covers them. -/
theorem pollGo_pending (oracle : Nat → PollResp) (maxWait interval : Nat)
    (hi : 0 < interval) (hp : ∀ k, (oracle k).isPending = true) :
    ∀ fuel elapsed polls, (maxWait - elapsed + interval - 1) / interval ≤ fuel →
      pollGo oracle maxWait interval fuel elapsed polls
        = (PollOutcome.timeout, polls + (maxWait - elapsed + interval - 1) / interval) := by
  intro fuel
  induction fuel with
  | zero =>
    intro elapsed polls hle
    rw [pollGo]
    have h0 : (maxWait - elapsed + interval - 1) / interval = 0 := Nat.le_zero.mp hle
    have hnlt : ¬ elapsed < maxWait := by
      intro hlt
      have h1 : 1 ≤ (maxWait - elapsed + interval - 1) / interval := by
        rw [Nat.one_le_div_iff hi]
        omega
      omega
    simp [hnlt, h0]
  | succ fuel ih =>
    intro elapsed polls hle
    rw [pollGo]
    by_cases hlt : elapsed < maxWait
    · have hstep : (maxWait - elapsed + interval - 1) / interval
          = (maxWait - (elapsed + interval) + interval - 1) / interval + 1 := by
        have hc := ceil_step (maxWait - elapsed) interval hi (by omega)
        have heq : maxWait - elapsed - interval = maxWait - (elapsed + interval) := by omega
        rw [hc, heq]
      have hfuel : (maxWait - (elapsed + interval) + interval - 1) / interval ≤ fuel := by
        rw [hstep] at hle
        omega
      have hrec := ih (elapsed + interval) (polls + 1) hfuel
      have hpend := hp polls
      cases horc : oracle polls with
      | transportError =>
        rw [horc] at hpend
        simp [PollResp.isPending] at hpend
      | noData =>
        simp only [hlt, if_true, horc, hrec, hstep]
        simp only [Prod.mk.injEq, true_and]
        omega
      | status s m u =>
        rw [horc] at hpend
        simp only [PollResp.isPending, Bool.and_eq_true, Bool.not_eq_true'] at hpend
        have hs1 : ¬ s = "succeed" := by
          intro h
          rw [h] at hpend
          exact absurd hpend.1 (by decide)
        have hs2 : ¬ s = "failed" := by
          intro h
          rw [h] at hpend
          exact absurd hpend.2 (by decide)
        simp only [hlt, if_true, horc, hs1, hs2, if_false, hrec, hstep]
        simp only [Prod.mk.injEq, true_and]
        omega
    · have h0 : maxWait - elapsed = 0 := by omega
      simp [hlt, h0, Nat.div_eq_of_lt (by omega : interval - 1 < interval)]

/-- Claim C5: when no poll reports a terminal state, the loop times out
after exactly `⌈maxWait / interval⌉` poll calls — the first moment the
accumulated poll time reaches `maxWait`, never earlier and never
later. -/
theorem c5_poll_timeout_at_max_wait (oracle : Nat → PollResp) (maxWait interval : Nat)
    (hi : 0 < interval) (hp : ∀ k, (oracle k).isPending = true) :
    pollLoop oracle maxWait interval
      = (PollOutcome.timeout, (maxWait + interval - 1) / interval) := by
  have h1 : maxWait ≤ maxWait * interval := Nat.le_mul_of_pos_right _ hi
  have hlt : maxWait - 0 + interval - 1 < (maxWait + 2) * interval := by
    calc maxWait - 0 + interval - 1 ≤ maxWait + interval := by omega
      _ ≤ maxWait * interval + interval := Nat.add_le_add_right h1 interval
      _ < maxWait * interval + 2 * interval := Nat.add_lt_add_left (by omega) _
      _ = (maxWait + 2) * interval := by ring
  have hfuel : (maxWait - 0 + interval - 1) / interval ≤ maxWait + 1 := by
    have := (Nat.div_lt_iff_lt_mul hi).mpr hlt
    omega
  have hres := pollGo_pending oracle maxWait interval hi hp (maxWait + 1) 0 0 hfuel
  simpa [pollLoop] using hres

/-- Witness for C5, Scenario C of the spec: `max_wait = 10`,
`interval = 5`, every poll pending — exactly 2 poll calls, then
timeout. -/
theorem c5_scenario_c_witness :
    pollLoop (fun _ => PollResp.noData) 10 5 = (PollOutcome.timeout, 2) :=
  c5_poll_timeout_at_max_wait (fun _ => PollResp.noData) 10 5 (by decide) (fun _ => rfl)

/-- Helper for C10: key dispatch leaves the prompt untouched unless the
key is `prompt`. -/
theorem applyKV_prompt_of_ne (cf : CurFrame) (k v : String) (hk : k ≠ "prompt") :
    (applyKV cf k v).prompt = cf.prompt := by
  unfold applyKV
  by_cases h1 : k = "frame" ∨ k = "frame_number"
  · rw [if_pos h1]
    cases pyToInt v <;> rfl
  · rw [if_neg h1]
    by_cases h2 : k = "prompt"
    · exact absurd h2 hk
    · rw [if_neg h2]
      by_cases h3 : k = "negative_prompt"
      · rw [if_pos h3]
      · rw [if_neg h3]
        by_cases h4 : k = "aspect_ratio"
        · rw [if_pos h4]
        · rw [if_neg h4]
          by_cases h5 : k = "seed"
          · rw [if_pos h5]
            cases pyToInt v <;> rfl
          · rw [if_neg h5]

/-- Helper for C10: a key/value line whose key is not `prompt`, or a line
without a colon, leaves the prompt untouched. -/
theorem parseLine_prompt_of_ne (cf : CurFrame) (t : String)
    (hk : ∀ k v, parseKV t = some (k, v) → k ≠ "prompt") :
    (parseLine cf t).prompt = cf.prompt := by
  unfold parseLine
  cases h : parseKV t with
  | none => rfl
  | some kv => exact applyKV_prompt_of_ne cf kv.1 kv.2 (hk kv.1 kv.2 h)

/-- Helper for C10: processing a delimiter-free block in which no line
sets a prompt, followed by a `'---'` line, flushes nothing and resets
the state — the block contributes no keyframe. -/
theorem parseGo_promptless_block :
    ∀ (block : List String),
      (∀ l ∈ block, pyStartsWith ['-', '-', '-'] (pyStrip l) = false) →
      (∀ l ∈ block, ∀ k v, parseKV (pyStrip l) = some (k, v) → k ≠ "prompt") →
      ∀ (cf : CurFrame), cf.prompt = none → ∀ rest,
        parseGo cf (block ++ "---" :: rest) = parseGo {} rest := by
  intro block
  induction block with
  | nil =>
    intro _ _ cf hcf rest
    have hstep : parseGo cf ([] ++ "---" :: rest)
        = if cf.prompt.isSome then flushFrame cf :: parseGo {} rest else parseGo {} rest := rfl
    rw [hstep]
    simp [hcf]
  | cons l ls ih =>
    intro h1 h2 cf hcf rest
    have ih' := ih (fun x hx => h1 x (List.mem_cons_of_mem l hx))
      (fun x hx => h2 x (List.mem_cons_of_mem l hx))
    rw [List.cons_append, parseGo]
    by_cases hskip : ((pyStrip l).data.isEmpty || pyStartsWith ['#'] (pyStrip l)) = true
    · rw [if_pos hskip]
      exact ih' cf hcf rest
    · rw [if_neg hskip]
      have hdash : ¬ pyStartsWith ['-', '-', '-'] (pyStrip l) = true := by
        rw [h1 l (List.mem_cons_self l ls)]
        decide
      rw [if_neg hdash]
      have hpl : (parseLine cf (pyStrip l)).prompt = none := by
        rw [parseLine_prompt_of_ne cf (pyStrip l) (h2 l (List.mem_cons_self l ls)), hcf]
      exact ih' (parseLine cf (pyStrip l)) hpl rest

/-- Claim C10: a `'---'`-delimited block containing no `prompt:` line
contributes no keyframe — parsing with the block is the same as parsing
without it — and the stage still answers with status `success` and a
count covering only the prompt-bearing blocks. -/
theorem c10_promptless_block_contributes_nothing (block rest : List String) (msg : KPMessage)
    (hf : pyTruthy msg.keyframes_file = true)
    (h1 : ∀ l ∈ block, pyStartsWith ['-', '-', '-'] (pyStrip l) = false)
    (h2 : ∀ l ∈ block, ∀ k v, parseKV (pyStrip l) = some (k, v) → k ≠ "prompt") :
    parseKeyframeLines (block ++ "---" :: rest) = parseKeyframeLines rest ∧
    (kpProcessInputMessage msg (Except.ok (block ++ "---" :: rest))).status = some "success" ∧
    (kpProcessInputMessage msg (Except.ok (block ++ "---" :: rest))).count
      = some (parseKeyframeLines rest).length := by
  have hmain : parseKeyframeLines (block ++ "---" :: rest) = parseKeyframeLines rest :=
    parseGo_promptless_block block h1 h2 {} rfl rest
  refine ⟨hmain, ?_, ?_⟩ <;> simp [kpProcessInputMessage, hf, hmain]

/-- Witness for C10: a block consisting of one `negative_prompt:` line is
dropped, and the stage output is a success whose count covers only the
remaining prompt-bearing block. -/
theorem c10_witness :
    parseKeyframeLines ["negative_prompt: dark", "---", "prompt: hello"]
        = parseKeyframeLines ["prompt: hello"] ∧
    (kpProcessInputMessage { keyframes_file := some "keyframes.txt" }
        (Except.ok ["negative_prompt: dark", "---", "prompt: hello"])).status
      = some "success" ∧
    (kpProcessInputMessage { keyframes_file := some "keyframes.txt" }
        (Except.ok ["negative_prompt: dark", "---", "prompt: hello"])).count
      = some (parseKeyframeLines ["prompt: hello"]).length :=
  c10_promptless_block_contributes_nothing ["negative_prompt: dark"] ["prompt: hello"]
    { keyframes_file := some "keyframes.txt" } (by decide)
    (by
      intro l hl
      rw [List.mem_singleton] at hl
      subst hl
      decide)
    (by
      intro l hl k v hkv
      rw [List.mem_singleton] at hl
      subst hl
      have hpk : parseKV (pyStrip "negative_prompt: dark")
          = some ("negative_prompt", "dark") := by decide
      rw [hpk] at hkv
      simp only [Option.some.injEq, Prod.mk.injEq] at hkv
      rw [← hkv.1]
      decide)

end Euterpe
